import Mathlib

/-!
Shallow embedding of the appliance-cycle controller in `src/main.c`.

The controller state consists of the global variable `timeCounter` (uint8),
the global variable `finished` (uint8, only ever 0 or 1), and the hardware
registers that the cycle state machine reads and writes:
`PORTC` (4-bit indicator output), `OCR0B` (duty-cycle compare value,
255 = output off), the timer-1 interrupt enable bit of `TIMSK1`, the clock
select bits of `TCCR1B` (clock on/off), and the `INT0` enable bit of `EIMSK`
(whether Start edges are delivered).  Machine bytes are modelled as `Nat`
with an explicit `% 256` where the code can overflow (`timeCounter += 1`).

The selector inputs live on `PIND`: bits 0-1 are the water level (value 3
means invalid) and bit 4 selects extended mode.
-/

/-- Selector inputs sampled from `PIND`: `waterLevel = PIND & 3`,
`extendedSelected = (PIND & (1 << PIND4)) != 0`. -/
structure Selector where
  waterLevel : Nat
  extendedSelected : Bool
deriving DecidableEq, Repr

/-- `#define EXTENDED (((PIND & (1 << PIND4)) == (1 << PIND4)) && (PIND & 3) != 3)` -/
def EXTENDED (sel : Selector) : Bool :=
  sel.extendedSelected && !(sel.waterLevel == 3)

/-- `#define NORMAL (((PIND & (1 << PIND4)) == 0 && (PIND & 3) != 3))` -/
def NORMAL (sel : Selector) : Bool :=
  !sel.extendedSelected && !(sel.waterLevel == 3)

/-- `uint8_t seven_seg[5] = {8, 1, 64, 121, 84};` -/
def seven_seg : List Nat := [8, 1, 64, 121, 84]

/-- `uint8_t pwm[3] = {230, 128, 26};` -/
def pwm : List Nat := [230, 128, 26]

/-- `display` in `main.c`: writes to `PORTA` the 7-bit segment mask of
`seven_seg[indexNumber]` together with the digit-select bit, or `63 | digit<<7`
when the cycle is finished.  We model the value written to `PORTA`. -/
def display (indexNumber digit fin : Nat) : Nat :=
  if fin == 0 then
    (seven_seg.getD indexNumber 0 &&& 0x7F) ||| (digit <<< 7)
  else
    63 ||| (digit <<< 7)

/-- `washCycle` in `main.c`. -/
def washCycle (timeCounter : Nat) : Nat :=
  if (timeCounter / 2) % 16 < 8 then
    1 <<< ((timeCounter / 2) % 4)
  else
    0b00001111

/-- `rinseCycle` in `main.c`. -/
def rinseCycle (timeCounter : Nat) : Nat :=
  if (timeCounter / 2) % 16 < 8 then
    1 <<< (3 - ((timeCounter / 2) % 4))
  else if timeCounter % 4 < 2 then
    0b00001111
  else
    0b00000000

/-- `spinCycle` in `main.c`. -/
def spinCycle (timeCounter : Nat) : Nat :=
  if (timeCounter / 2) % 16 < 4 then
    1 <<< ((timeCounter / 2) % 4)
  else if (timeCounter / 2) % 16 < 8 then
    1 <<< (3 - ((timeCounter / 2) % 4))
  else if timeCounter % 2 == 0 then
    0b00001111
  else
    0b00000000

/-- The state owned by the cycle state machine: the two globals plus the
registers it mutates.  `tickEnabled` is the `OCIE1A` bit of `TIMSK1`,
`clockOn` the clock-select bits of `TCCR1B`, `startEnabled` the `INT0` bit
of `EIMSK`. -/
structure MachineState where
  timeCounter : Nat
  finished : Nat
  portc : Nat
  ocr0b : Nat
  tickEnabled : Bool
  clockOn : Bool
  startEnabled : Bool
deriving DecidableEq, Repr

/-- `reset` in `main.c`: `timeCounter = 0; TIMSK1 = 0; OCR0B = 255; PORTC = 0;
TCCR1B = 0 (clock off); EIMSK = INT0|INT1` (Start re-enabled).  The interrupt
flag clears (`TIFR1`, `EIFR`) have no counterpart in this state model. -/
def reset (s : MachineState) : MachineState :=
  { s with
    timeCounter := 0
    tickEnabled := false
    ocr0b := 255
    portc := 0
    clockOn := false
    startEnabled := true }

/-- `startSystem` in `main.c`: `timeCounter = 0; PORTC = 1; OCR0B = pwm[0];
TCCR1B = clock on; TIMSK1 = OCIE1A; EIMSK = INT1 only` (Start disabled). -/
def startSystem (s : MachineState) : MachineState :=
  { s with
    timeCounter := 0
    portc := 1
    ocr0b := pwm.getD 0 0
    clockOn := true
    tickEnabled := true
    startEnabled := false }

/-- State after `main`'s initialisation: `finished = 0`, `OCR0B = 255`,
timer-1 clock off and its interrupt mask clear (power-on defaults),
`PORTC = 0` (power-on default), `EIMSK = INT0|INT1`. -/
def initState : MachineState :=
  { timeCounter := 0
    finished := 0
    portc := 0
    ocr0b := 255
    tickEnabled := false
    clockOn := false
    startEnabled := true }

/-- The body of `ISR(INT0_vect)`: start the cycle when a valid mode is
selected, then clear `finished` if it was set. -/
def int0Body (sel : Selector) (s : MachineState) : MachineState :=
  let s1 := if EXTENDED sel || NORMAL sel then startSystem s else s
  if s1.finished == 1 then { s1 with finished := 0 } else s1

/-- A Start edge: `ISR(INT0_vect)` runs only while the `INT0` interrupt is
enabled in `EIMSK`. -/
def onStart (sel : Selector) (s : MachineState) : MachineState :=
  if s.startEnabled then int0Body sel s else s

/-- A Reset edge, `ISR(INT1_vect)`: `reset(); finished = 0;`
(`INT1` is enabled in every reachable `EIMSK` value). -/
def onReset (s : MachineState) : MachineState :=
  { reset s with finished := 0 }

/-- The body of `ISR(TIMER1_COMPA_vect)`: mode-dependent phase progression.
`timeCounter += 1` is an 8-bit increment. -/
def tickBody (sel : Selector) (s : MachineState) : MachineState :=
  if EXTENDED sel then
    let t := (s.timeCounter + 1) % 256
    if t < 32 then
      { s with timeCounter := t, portc := washCycle t }
    else if t < 96 then
      { s with timeCounter := t, ocr0b := pwm.getD 1 0, portc := rinseCycle t }
    else if t < 128 then
      { s with timeCounter := t, ocr0b := pwm.getD 2 0, portc := spinCycle t }
    else
      { reset { s with timeCounter := t } with finished := 1 }
  else if NORMAL sel then
    let t := (s.timeCounter + 1) % 256
    if t < 32 then
      { s with timeCounter := t, portc := washCycle t }
    else if t < 64 then
      { s with timeCounter := t, ocr0b := pwm.getD 1 0, portc := rinseCycle t }
    else if t < 96 then
      { s with timeCounter := t, ocr0b := pwm.getD 2 0, portc := spinCycle t }
    else
      { reset { s with timeCounter := t } with finished := 1 }
  else
    s

/-- A Tick event: `TIMER1_COMPA` fires only while the timer-1 interrupt is
enabled and the timer-1 clock is running. -/
def onTick (sel : Selector) (s : MachineState) : MachineState :=
  if s.tickEnabled && s.clockOn then tickBody sel s else s

/-- `n` consecutive Tick events with the selector held at `sel`. -/
def iterTick (sel : Selector) : Nat → MachineState → MachineState
  | 0, s => s
  | n + 1, s => onTick sel (iterTick sel n s)

/-- The state after the tick handler transitions into Done:
every register reset, `finished` set. -/
def doneState : MachineState :=
  { initState with finished := 1 }

/-- Cycle length in ticks for a valid selector: 128 in Extended mode,
96 in Normal mode. -/
def cycleLen (sel : Selector) : Nat :=
  if sel.extendedSelected then 128 else 96

/-- Tick threshold at which the duty cycle switches from Mid to High:
96 in Extended mode, 64 in Normal mode. -/
def rinseEnd (sel : Selector) : Nat :=
  if sel.extendedSelected then 96 else 64

/-! ## Helper lemmas -/

/-- The tick handler depends on the selector only through the two guard
macros `EXTENDED` and `NORMAL`. -/
theorem tickBody_congr (sel sel' : Selector) (s : MachineState)
    (hE : EXTENDED sel = EXTENDED sel') (hN : NORMAL sel = NORMAL sel') :
    tickBody sel s = tickBody sel' s := by
  unfold tickBody
  rw [hE, hN]

theorem onTick_congr (sel sel' : Selector) (s : MachineState)
    (hE : EXTENDED sel = EXTENDED sel') (hN : NORMAL sel = NORMAL sel') :
    onTick sel s = onTick sel' s := by
  unfold onTick
  rw [tickBody_congr sel sel' s hE hN]

theorem iterTick_congr (sel sel' : Selector) (n : Nat) (s : MachineState)
    (hE : EXTENDED sel = EXTENDED sel') (hN : NORMAL sel = NORMAL sel') :
    iterTick sel n s = iterTick sel' n s := by
  induction n with
  | zero => rfl
  | succ n ih => simp only [iterTick, ih, onTick_congr sel sel' _ hE hN]

/-- A valid selector behaves like the canonical selector with the same
mode bit and water level 0. -/
theorem guards_canon (sel : Selector) (h : sel.waterLevel ≠ 3) :
    EXTENDED sel = EXTENDED ⟨0, sel.extendedSelected⟩ ∧
    NORMAL sel = NORMAL ⟨0, sel.extendedSelected⟩ := by
  simp [EXTENDED, NORMAL, h]

theorem onStart_congr (sel sel' : Selector) (s : MachineState)
    (hE : EXTENDED sel = EXTENDED sel') (hN : NORMAL sel = NORMAL sel') :
    onStart sel s = onStart sel' s := by
  unfold onStart int0Body
  rw [hE, hN]

/-- Ticks are not delivered once the timer-1 interrupt is disabled. -/
theorem onTick_disabled (sel : Selector) (s : MachineState)
    (h : s.tickEnabled = false) : onTick sel s = s := by
  simp [onTick, h]

theorem iterTick_disabled (sel : Selector) (n : Nat) (s : MachineState)
    (h : s.tickEnabled = false) : iterTick sel n s = s := by
  induction n with
  | zero => rfl
  | succ n ih => simp only [iterTick, ih, onTick_disabled sel s h]

theorem iterTick_add (sel : Selector) (m n : Nat) (s : MachineState) :
    iterTick sel (m + n) s = iterTick sel n (iterTick sel m s) := by
  induction n with
  | zero => rfl
  | succ n ih =>
    simp only [Nat.add_succ, iterTick]
    exact congrArg (onTick sel) ih

set_option maxRecDepth 100000 in
/-- Concrete run, Normal mode: the first 96 ticks do not finish the cycle. -/
theorem runNormal_before : ∀ n, n < 96 →
    (iterTick ⟨0, false⟩ n (onStart ⟨0, false⟩ initState)).finished = 0 ∧
    (iterTick ⟨0, false⟩ n (onStart ⟨0, false⟩ initState)).tickEnabled = true := by
  decide

set_option maxRecDepth 100000 in
/-- Concrete run, Extended mode: the first 128 ticks do not finish the cycle. -/
theorem runExtended_before : ∀ n, n < 128 →
    (iterTick ⟨0, true⟩ n (onStart ⟨0, true⟩ initState)).finished = 0 ∧
    (iterTick ⟨0, true⟩ n (onStart ⟨0, true⟩ initState)).tickEnabled = true := by
  decide

set_option maxRecDepth 4000 in
/-- Concrete run, Normal mode: tick 96 resets the machine and sets `finished`. -/
theorem runNormal_done :
    iterTick ⟨0, false⟩ 96 (onStart ⟨0, false⟩ initState) = doneState := by
  decide

set_option maxRecDepth 8000 in
/-- Concrete run, Extended mode: tick 128 resets the machine and sets `finished`. -/
theorem runExtended_done :
    iterTick ⟨0, true⟩ 128 (onStart ⟨0, true⟩ initState) = doneState := by
  decide

set_option maxRecDepth 100000 in
/-- Concrete run, Normal mode: `OCR0B` over the whole cycle. -/
theorem runNormal_duty : ∀ n, n < 96 →
    (iterTick ⟨0, false⟩ n (onStart ⟨0, false⟩ initState)).ocr0b =
      (if n < 32 then 230 else if n < 64 then 128 else 26) := by
  decide

set_option maxRecDepth 100000 in
/-- Concrete run, Extended mode: `OCR0B` over the whole cycle. -/
theorem runExtended_duty : ∀ n, n < 128 →
    (iterTick ⟨0, true⟩ n (onStart ⟨0, true⟩ initState)).ocr0b =
      (if n < 32 then 230 else if n < 96 then 128 else 26) := by
  decide

/-- A run from a freshly started machine, reduced to the canonical selector
of the same mode. -/
theorem run_canon (sel : Selector) (h : sel.waterLevel ≠ 3) (n : Nat) :
    iterTick sel n (onStart sel initState) =
      iterTick ⟨0, sel.extendedSelected⟩ n
        (onStart ⟨0, sel.extendedSelected⟩ initState) := by
  obtain ⟨hE, hN⟩ := guards_canon sel h
  rw [onStart_congr sel ⟨0, sel.extendedSelected⟩ initState hE hN,
    iterTick_congr sel ⟨0, sel.extendedSelected⟩ n _ hE hN]

/-- Once the Done state is reached, further ticks change nothing. -/
theorem iterTick_doneState (sel : Selector) (n : Nat) :
    iterTick sel n doneState = doneState :=
  iterTick_disabled sel n doneState rfl

/-- `NORMAL` and `EXTENDED` share the water-level guard and test opposite
values of the mode bit, so they are never both true. -/
theorem EXTENDED_eq_false_of_NORMAL (sel : Selector) (h : NORMAL sel = true) :
    EXTENDED sel = false := by
  simp only [NORMAL, Bool.and_eq_true, Bool.not_eq_eq_eq_not, Bool.not_true] at h
  simp [EXTENDED, h.1]

/-- In the done region of the Extended branch, the tick handler performs the
Reset-edge state change with `finished` set instead of cleared. -/
theorem tickBody_done_extended (sel : Selector) (s : MachineState)
    (hE : EXTENDED sel = true) (hge : 128 ≤ (s.timeCounter + 1) % 256) :
    tickBody sel s = { onReset s with finished := 1 } := by
  have h1 : ¬ ((s.timeCounter + 1) % 256 < 32) := by omega
  have h2 : ¬ ((s.timeCounter + 1) % 256 < 96) := by omega
  have h3 : ¬ ((s.timeCounter + 1) % 256 < 128) := by omega
  simp [tickBody, hE, h1, h2, h3, onReset, reset]

/-- In the done region of the Normal branch, the tick handler performs the
Reset-edge state change with `finished` set instead of cleared. -/
theorem tickBody_done_normal (sel : Selector) (s : MachineState)
    (hN : NORMAL sel = true) (hge : 96 ≤ (s.timeCounter + 1) % 256) :
    tickBody sel s = { onReset s with finished := 1 } := by
  have h1 : ¬ ((s.timeCounter + 1) % 256 < 32) := by omega
  have h2 : ¬ ((s.timeCounter + 1) % 256 < 64) := by omega
  have h3 : ¬ ((s.timeCounter + 1) % 256 < 96) := by omega
  simp [tickBody, EXTENDED_eq_false_of_NORMAL sel hN, hN, h1, h2, h3,
    onReset, reset]

/-! ## Claims -/

/-- C1: started by a Start edge and driven only by Tick events with the
selector held at a fixed valid mode, the machine stays unfinished and active
for every tick count below the cycle length (96 in Normal mode, 128 in
Extended mode), and from the cycle length on it is exactly the Done state:
`finished` set and every other component reset. -/
theorem cycle_done_exactly (sel : Selector) (h : sel.waterLevel ≠ 3) :
    (∀ n, n < cycleLen sel →
      (iterTick sel n (onStart sel initState)).finished = 0 ∧
      (iterTick sel n (onStart sel initState)).tickEnabled = true) ∧
    (∀ n, cycleLen sel ≤ n →
      iterTick sel n (onStart sel initState) = doneState) := by
  constructor
  · intro n hn
    rw [run_canon sel h n]
    cases hext : sel.extendedSelected with
    | false =>
      simp [cycleLen, hext] at hn
      exact runNormal_before n hn
    | true =>
      simp [cycleLen, hext] at hn
      exact runExtended_before n hn
  · intro n hn
    obtain ⟨k, rfl⟩ := Nat.exists_eq_add_of_le hn
    have hin : iterTick sel (cycleLen sel) (onStart sel initState) = doneState := by
      rw [run_canon sel h (cycleLen sel)]
      cases hext : sel.extendedSelected with
      | false =>
        simp only [cycleLen, hext, Bool.false_eq_true, if_false]
        exact runNormal_done
      | true =>
        simp only [cycleLen, hext, if_true]
        exact runExtended_done
    rw [iterTick_add, hin]
    exact iterTick_doneState sel k

/-- C1 witness: at the concrete Normal-mode selector with water level 1,
tick 95 is not yet Done and tick 96 is exactly the Done state. -/
theorem cycle_done_exactly_witness :
    (iterTick ⟨1, false⟩ 95 (onStart ⟨1, false⟩ initState)).finished = 0 ∧
    iterTick ⟨1, false⟩ 96 (onStart ⟨1, false⟩ initState) = doneState :=
  ⟨((cycle_done_exactly ⟨1, false⟩ (by decide)).1 95 (by decide)).1,
    (cycle_done_exactly ⟨1, false⟩ (by decide)).2 96 (by decide)⟩

/-- C2 counterexample: in the reachable completed state (`finished` set,
Start re-enabled), a Start edge with the selector invalid does change the
state — the handler clears `finished` outside the mode guard. -/
theorem start_invalid_changes_state :
    onStart ⟨3, false⟩ doneState ≠ doneState := by decide

/-- C2 (amended): a Start edge delivered while `waterLevel == 3` does not
start a cycle and modifies no state variable or output except `finished`,
which is cleared if it was set. -/
theorem start_invalid_no_cycle (sel : Selector) (s : MachineState)
    (hw : sel.waterLevel = 3) (hen : s.startEnabled = true) :
    (onStart sel s).tickEnabled = s.tickEnabled ∧
    (onStart sel s).clockOn = s.clockOn ∧
    (onStart sel s).timeCounter = s.timeCounter ∧
    (onStart sel s).portc = s.portc ∧
    (onStart sel s).ocr0b = s.ocr0b ∧
    (onStart sel s).startEnabled = s.startEnabled ∧
    (onStart sel s).finished = (if s.finished = 1 then 0 else s.finished) := by
  have hstep : onStart sel s =
      (if s.finished == 1 then { s with finished := 0 } else s) := by
    simp [onStart, int0Body, EXTENDED, NORMAL, hw, hen]
  rw [hstep]
  by_cases hf : s.finished = 1 <;> simp [hf]

/-- C2 witness: the amended statement at the completed state and an invalid
selector. -/
theorem start_invalid_no_cycle_witness :
    (onStart ⟨3, false⟩ doneState).tickEnabled = doneState.tickEnabled ∧
    (onStart ⟨3, false⟩ doneState).clockOn = doneState.clockOn ∧
    (onStart ⟨3, false⟩ doneState).timeCounter = doneState.timeCounter ∧
    (onStart ⟨3, false⟩ doneState).portc = doneState.portc ∧
    (onStart ⟨3, false⟩ doneState).ocr0b = doneState.ocr0b ∧
    (onStart ⟨3, false⟩ doneState).startEnabled = doneState.startEnabled ∧
    (onStart ⟨3, false⟩ doneState).finished =
      (if doneState.finished = 1 then 0 else doneState.finished) :=
  start_invalid_no_cycle ⟨3, false⟩ doneState rfl rfl

/-- C3 counterexample: `washCycle 8` is `1 << ((8/2) % 4) = 1`, not 2. -/
theorem washPattern_at_8_not_2 : washCycle 8 ≠ 2 := by decide

/-- C3 (amended): `washCycle 0 = 1`, `washCycle 8 = 1` (the sweep restarts at
bit 0 after four positions), `washCycle 16 = 0b1111`, and the first all-on
output occurs at tick 16. -/
theorem washPattern_points :
    washCycle 0 = 1 ∧ washCycle 8 = 1 ∧ washCycle 16 = 0b1111 ∧
    ∀ t, t < 16 → washCycle t ≠ 0b1111 := by decide

/-- C3 witness: the all-on mask does not occur at tick 15. -/
theorem washPattern_points_witness : washCycle 15 ≠ 0b1111 :=
  washPattern_points.2.2.2 15 (by decide)

/-- C4 counterexample: the claimed point values fail — `rinseCycle 18 = 0`
(tick 18 is in the off half of the blink) and `rinseCycle 20 = 0b1111`. -/
theorem rinsePattern_point_values_false :
    ¬ (rinseCycle 0 = 0b1000 ∧ rinseCycle 16 = 0b1111 ∧
       rinseCycle 18 = 0b1111 ∧ rinseCycle 20 = 0) := by decide

/-- C4 (amended): `rinseCycle 0 = 0b1000`, `rinseCycle 16 = 0b1111`,
`rinseCycle 18 = 0`, `rinseCycle 20 = 0b1111` (the blink is on for
`tick mod 4 < 2`, so 18 is off and 20 is on). -/
theorem rinsePattern_points :
    rinseCycle 0 = 0b1000 ∧ rinseCycle 16 = 0b1111 ∧
    rinseCycle 18 = 0 ∧ rinseCycle 20 = 0b1111 := by decide

/-- C5: a Reset edge in any state sets `active` to false (timer interrupt
and clock off), resets `tick` to 0, clears the indicator output, disables
the duty-cycle output, clears `finished`, and re-enables the Start trigger. -/
theorem reset_edge_resets (s : MachineState) :
    (onReset s).tickEnabled = false ∧
    (onReset s).clockOn = false ∧
    (onReset s).timeCounter = 0 ∧
    (onReset s).portc = 0 ∧
    (onReset s).ocr0b = 255 ∧
    (onReset s).finished = 0 ∧
    (onReset s).startEnabled = true :=
  ⟨rfl, rfl, rfl, rfl, rfl, rfl, rfl⟩

/-- C6: while the machine is active, a Tick event with the selector invalid
leaves `tick`, `finished`, the indicator output and the duty-cycle output
unchanged, and the cycle stays active. -/
theorem invalid_tick_freezes (sel : Selector) (s : MachineState)
    (hw : sel.waterLevel = 3) (hact : s.tickEnabled = true) :
    (onTick sel s).timeCounter = s.timeCounter ∧
    (onTick sel s).finished = s.finished ∧
    (onTick sel s).portc = s.portc ∧
    (onTick sel s).ocr0b = s.ocr0b ∧
    (onTick sel s).tickEnabled = true := by
  have hid : onTick sel s = s := by
    simp [onTick, tickBody, EXTENDED, NORMAL, hw]
  rw [hid]
  exact ⟨rfl, rfl, rfl, rfl, hact⟩

/-- C6 witness: a tick in the freshly started state with an invalid selector
changes nothing. -/
theorem invalid_tick_freezes_witness :
    (onTick ⟨3, true⟩ (startSystem initState)).timeCounter =
      (startSystem initState).timeCounter ∧
    (onTick ⟨3, true⟩ (startSystem initState)).finished =
      (startSystem initState).finished ∧
    (onTick ⟨3, true⟩ (startSystem initState)).portc =
      (startSystem initState).portc ∧
    (onTick ⟨3, true⟩ (startSystem initState)).ocr0b =
      (startSystem initState).ocr0b ∧
    (onTick ⟨3, true⟩ (startSystem initState)).tickEnabled = true :=
  invalid_tick_freezes ⟨3, true⟩ (startSystem initState) rfl rfl

/-- C7: whenever the tick handler transitions into Done (in either valid
mode), the resulting state is the Reset-edge state in every component except
`finished`: after Done `finished = 1`, after a Reset edge `finished = 0`. -/
theorem done_matches_reset (sel : Selector) (s : MachineState)
    (hen : s.tickEnabled = true) (hclk : s.clockOn = true)
    (hdone : (EXTENDED sel = true ∧ 128 ≤ (s.timeCounter + 1) % 256) ∨
             (NORMAL sel = true ∧ 96 ≤ (s.timeCounter + 1) % 256)) :
    onTick sel s = { onReset s with finished := 1 } ∧
    (onTick sel s).finished = 1 ∧ (onReset s).finished = 0 := by
  have hbody : tickBody sel s = { onReset s with finished := 1 } := by
    rcases hdone with ⟨hE, hge⟩ | ⟨hN, hge⟩
    · exact tickBody_done_extended sel s hE hge
    · exact tickBody_done_normal sel s hN hge
  have htick : onTick sel s = { onReset s with finished := 1 } := by
    rw [onTick, hen, hclk]
    simpa using hbody
  exact ⟨htick, by rw [htick], rfl⟩

/-- C7 witness: the Normal-mode Done transition at `timeCounter = 95`. -/
theorem done_matches_reset_witness :
    onTick ⟨0, false⟩
        ⟨95, 0, 3, 26, true, true, false⟩ =
      { onReset ⟨95, 0, 3, 26, true, true, false⟩ with finished := 1 } ∧
    (onTick ⟨0, false⟩ ⟨95, 0, 3, 26, true, true, false⟩).finished = 1 ∧
    (onReset ⟨95, 0, 3, 26, true, true, false⟩).finished = 0 :=
  done_matches_reset ⟨0, false⟩ ⟨95, 0, 3, 26, true, true, false⟩ rfl rfl
    (Or.inr ⟨by decide, by decide⟩)

/-- C8: during a cycle started with a fixed valid mode, the duty-cycle
output is Low (`pwm[0] = 230`) until tick 32, becomes Mid (`pwm[1] = 128`)
exactly at tick 32 in either mode, becomes High (`pwm[2] = 26`) exactly at
tick 64 in Normal mode and 96 in Extended mode, and is Off (255) from the
end of the cycle on. -/
theorem duty_cycle_thresholds (sel : Selector) (h : sel.waterLevel ≠ 3) :
    ∀ n, (iterTick sel n (onStart sel initState)).ocr0b =
      (if n < 32 then 230 else if n < rinseEnd sel then 128
       else if n < cycleLen sel then 26 else 255) := by
  intro n
  rcases Nat.lt_or_ge n (cycleLen sel) with hn | hn
  · rw [run_canon sel h n]
    cases hext : sel.extendedSelected with
    | false =>
      simp [cycleLen, hext] at hn
      rw [runNormal_duty n hn]
      simp only [rinseEnd, cycleLen, hext, Bool.false_eq_true, if_false]
      split_ifs <;> omega
    | true =>
      simp [cycleLen, hext] at hn
      rw [runExtended_duty n hn]
      simp only [rinseEnd, cycleLen, hext, if_true]
      split_ifs <;> omega
  · obtain ⟨k, rfl⟩ := Nat.exists_eq_add_of_le hn
    have hin : iterTick sel (cycleLen sel) (onStart sel initState) = doneState := by
      rw [run_canon sel h (cycleLen sel)]
      cases hext : sel.extendedSelected with
      | false =>
        simp only [cycleLen, hext, Bool.false_eq_true, if_false]
        exact runNormal_done
      | true =>
        simp only [cycleLen, hext, if_true]
        exact runExtended_done
    rw [iterTick_add, hin, iterTick_doneState]
    have h32 : 32 ≤ cycleLen sel := by
      cases hext : sel.extendedSelected <;> simp [cycleLen, hext]
    have hre : rinseEnd sel ≤ cycleLen sel := by
      cases hext : sel.extendedSelected <;> simp [cycleLen, rinseEnd, hext]
    rw [if_neg (by omega), if_neg (by omega), if_neg (by omega)]
    rfl

/-- C8 witness: in Normal mode the duty-cycle output is Mid at tick 32. -/
theorem duty_cycle_thresholds_witness :
    (iterTick ⟨0, false⟩ 32 (onStart ⟨0, false⟩ initState)).ocr0b =
      (if 32 < 32 then 230 else if 32 < rinseEnd ⟨0, false⟩ then 128
       else if 32 < cycleLen ⟨0, false⟩ then 26 else 255) :=
  duty_cycle_thresholds ⟨0, false⟩ (by decide) 32

/-- C9: when `finished` is set, the display encoding produces the same 7-bit
segment mask (63) for every content index on both digits; when it is clear,
the masks for index 3 and index 4 differ. -/
theorem display_finished_uniform :
    (∀ indexNumber digit, digit < 2 →
      display indexNumber digit 1 % 128 = 63) ∧
    display 3 0 0 % 128 ≠ display 4 0 0 % 128 := by
  constructor
  · intro i d hd
    interval_cases d
    · show (63 ||| (0 <<< 7)) % 128 = 63
      decide
    · show (63 ||| (1 <<< 7)) % 128 = 63
      decide
  · decide

/-- C9 witness: the completion glyph on the left digit at index 0. -/
theorem display_finished_uniform_witness :
    1 < 2 ∧ display 0 1 1 % 128 = 63 :=
  ⟨by decide, display_finished_uniform.1 0 1 (by decide)⟩

set_option maxRecDepth 10000 in
/-- C10: each pattern function is periodic with period 32 on the 8-bit tick
domain. -/
theorem patterns_periodic : ∀ t, t < 256 →
    washCycle ((t + 32) % 256) = washCycle t ∧
    rinseCycle ((t + 32) % 256) = rinseCycle t ∧
    spinCycle ((t + 32) % 256) = spinCycle t := by
  decide

/-- C10 witness: period 32 at tick 7. -/
theorem patterns_periodic_witness :
    washCycle ((7 + 32) % 256) = washCycle 7 ∧
    rinseCycle ((7 + 32) % 256) = rinseCycle 7 ∧
    spinCycle ((7 + 32) % 256) = spinCycle 7 :=
  patterns_periodic 7 (by decide)
